import Mathlib

/-!
Verification of the core of the silver-gold-tracker web application:
the price cache and estimate calculator (app/services/pricing.py) and the
listing/thread messaging subsystem (app/services/threads.py and the route
handlers in app/routers/pages.py).

Python floats are modelled as exact rationals; Python None-able values as
Option; JSONL record stores as Lean lists in file order; per-thread message
files as a function from thread id to the list of messages in file order.
-/

/-! ## Rounding

Python round(v, 2) rounds to the nearest multiple of 1/100, resolving ties
to the even hundredth (banker rounding). roundHalfEven is that tie rule on
a rational scaled to integers.
-/

/-- Round a rational to the nearest integer, ties to the even integer.
This is the rounding rule of Python round applied to an exact value. -/
def roundHalfEven (x : ℚ) : ℤ :=
  if Int.fract x < 1/2 then ⌊x⌋
  else if 1/2 < Int.fract x then ⌊x⌋ + 1
  else if ⌊x⌋ % 2 = 0 then ⌊x⌋ else ⌊x⌋ + 1

/-- Model of Python round(x, 2): scale by 100, round half to even, unscale. -/
def round2 (x : ℚ) : ℚ := (roundHalfEven (x * 100) : ℚ) / 100

/-- Round a rational to the nearest integer with ties away from zero.
This definition follows the words of the specification, which prescribes
round-half-up (ties to the larger magnitude); it is stated only to be
compared against the rounding the code performs. -/
def roundHalfUpAway (x : ℚ) : ℤ :=
  if 0 ≤ x then ⌊x + 1/2⌋ else -⌊-x + 1/2⌋

/-- Two-decimal rounding as the specification words describe it
(round-half-up), for comparison with round2. -/
def round2HalfUpSpec (x : ℚ) : ℚ := (roundHalfUpAway (x * 100) : ℚ) / 100

theorem roundHalfEven_nearest (x : ℚ) : |x - (roundHalfEven x : ℚ)| ≤ 1/2 := by
  have h0 : 0 ≤ Int.fract x := Int.fract_nonneg x
  have h1 : Int.fract x < 1 := Int.fract_lt_one x
  have hd : Int.fract x = x - ⌊x⌋ := rfl
  unfold roundHalfEven
  split_ifs with hlt hgt heven
  · rw [abs_of_nonneg (by linarith)]
    linarith
  · push_cast
    rw [abs_of_nonpos (by linarith)]
    linarith
  · rw [abs_of_nonneg (by linarith)]
    linarith
  · push_cast
    rw [abs_of_nonpos (by linarith)]
    linarith

theorem roundHalfEven_tie_even (x : ℚ)
    (h : |x - (roundHalfEven x : ℚ)| = 1/2) : roundHalfEven x % 2 = 0 := by
  have h0 : 0 ≤ Int.fract x := Int.fract_nonneg x
  have h1 : Int.fract x < 1 := Int.fract_lt_one x
  have hd : Int.fract x = x - ⌊x⌋ := rfl
  unfold roundHalfEven at h ⊢
  split_ifs at h ⊢ with hlt hgt heven
  · exfalso
    rw [abs_of_nonneg (by linarith)] at h
    linarith
  · exfalso
    push_cast at h
    rw [abs_of_nonpos (by linarith)] at h
    linarith
  · exact heven
  · omega

/-! ## Price cache (app/services/pricing.py)

The module-level dict cache with keys updated, silver, gold, usdkrw is a
structure with an Option field per nullable price. A refresh either raises
somewhere in its fetch and parse phase (modelled as the fetch argument
being none, since no cache field is written before that phase completes)
or obtains three parsed floats and then writes the four fields.
-/

/-- Constant OZ_TO_GRAM from app/core/settings.py. -/
def OZ_TO_GRAM : ℚ := 31.1035

/-- Constant DON_TO_GRAM from app/core/settings.py. -/
def DON_TO_GRAM : ℚ := 3.75

/-- Constant CACHE_TTL from app/core/settings.py (15 minutes in seconds). -/
def CACHE_TTL : ℚ := 15 * 60

/-- The module-level cache dict of pricing.py. -/
structure Cache where
  updated : ℚ
  silver : Option ℚ
  gold : Option ℚ
  usdkrw : Option ℚ
deriving DecidableEq

/-- The initial value of the cache dict at module load:
updated 0.0 and all three prices None. -/
def initial_cache : Cache := ⟨0, none, none, none⟩

/-- The three successfully fetched and float-parsed upstream values of one
refresh: silver USD per troy ounce, gold USD per troy ounce, USD to KRW. -/
structure FetchResult where
  silver_usd_per_oz : ℚ
  gold_usd_per_oz : ℚ
  usdkrw : ℚ
deriving DecidableEq

/-- Conversion USD per ounce to KRW per gram for silver, line 61 of
pricing.py. -/
def silver_per_gram (f : FetchResult) : ℚ :=
  f.silver_usd_per_oz * f.usdkrw / OZ_TO_GRAM

/-- Conversion USD per ounce to KRW per gram for gold, line 62 of
pricing.py. -/
def gold_per_gram (f : FetchResult) : ℚ :=
  f.gold_usd_per_oz * f.usdkrw / OZ_TO_GRAM

/-- refresh_data of pricing.py, sequentially: fetch none models any raised
exception in the fetch and parse phase (lines 52 to 58), which is caught
and leaves the cache untouched; fetch some f models all three requests
succeeding, after which lines 64 to 67 write all four fields. now is the
value time.time() returns at line 67. -/
def refresh_data (c : Cache) (fetch : Option FetchResult) (now : ℚ) : Cache :=
  match fetch with
  | none => c
  | some f =>
    { silver := some (silver_per_gram f)
      gold := some (gold_per_gram f)
      usdkrw := some f.usdkrw
      updated := now }

/-- get_data of pricing.py: computes the staleness flag (which decides
whether an asynchronous refresh is triggered) and returns the cache dict
itself, unchanged and uncopied. -/
def get_data (c : Cache) (now : ℚ) : Bool × Cache :=
  (decide (c.silver = none ∨ c.gold = none ∨ c.usdkrw = none
    ∨ CACHE_TTL < now - c.updated), c)

/-- Cache states reachable from module load: only refresh_data mutates the
cache dict; get_data and compute_estimate read it. -/
inductive Reachable : Cache → Prop
  | init : Reachable initial_cache
  | step (c : Cache) (fetch : Option FetchResult) (now : ℚ) :
      Reachable c → Reachable (refresh_data c fetch now)

/-- The single dict store of line 64 of pricing.py. -/
def write_silver (f : FetchResult) (c : Cache) : Cache :=
  { c with silver := some (silver_per_gram f) }

/-- The single dict store of line 65 of pricing.py. -/
def write_gold (f : FetchResult) (c : Cache) : Cache :=
  { c with gold := some (gold_per_gram f) }

/-- The single dict store of line 66 of pricing.py. -/
def write_usdkrw (f : FetchResult) (c : Cache) : Cache :=
  { c with usdkrw := some f.usdkrw }

/-- The single dict store of line 67 of pricing.py. -/
def write_updated (now : ℚ) (c : Cache) : Cache :=
  { c with updated := now }

/-- The cache states visible during a successful refresh: the pre-state
and the state after each of the four dict stores of lines 64 to 67, in
program order. Each single store is atomic under the interpreter lock, but
a reader may run between any two of them. -/
def refresh_trace (f : FetchResult) (now : ℚ) (c : Cache) : List Cache :=
  [c, write_silver f c, write_gold f (write_silver f c),
    write_usdkrw f (write_gold f (write_silver f c)),
    write_updated now (write_usdkrw f (write_gold f (write_silver f c)))]

/-! ## Estimate calculator (compute_estimate, pricing.py lines 94 to 125) -/

/-- The two ValueError conditions compute_estimate can raise. -/
inductive EstimateError where
  | invalidAmount
  | pricesUnavailable
deriving DecidableEq

/-- Lines 99 to 100: any metal outside silver and gold becomes silver. -/
def normalize_metal (metal : String) : String :=
  if metal = "silver" ∨ metal = "gold" then metal else "silver"

/-- Lines 102 to 103: any unit outside g, kg, oz, don becomes g. -/
def normalize_unit (unit : String) : String :=
  if unit = "g" ∨ unit = "kg" ∨ unit = "oz" ∨ unit = "don" then unit else "g"

/-- Lines 114 to 121: convert the entered amount to grams. -/
def toGrams (unit : String) (amount : ℚ) : ℚ :=
  if unit = "kg" then amount * 1000
  else if unit = "oz" then amount * OZ_TO_GRAM
  else if unit = "don" then amount * DON_TO_GRAM
  else amount

/-- compute_estimate of pricing.py. amount none models the Python value
None; the result triple is (grams, price_per_gram, estimate_total). -/
def compute_estimate (metal unit : String) (amount : Option ℚ) (data : Cache) :
    Except EstimateError (ℚ × ℚ × ℚ) :=
  let metal := normalize_metal metal
  let unit := normalize_unit unit
  match amount with
  | none => .error .invalidAmount
  | some a =>
    if a ≤ 0 then .error .invalidAmount
    else
      match data.silver, data.gold, data.usdkrw with
      | some s, some g, some _ =>
        let price_per_gram := if metal = "silver" then s else g
        let grams := toGrams unit a
        .ok (grams, price_per_gram, round2 (price_per_gram * grams))
      | none, _, _ => .error .pricesUnavailable
      | _, none, _ => .error .pricesUnavailable
      | _, _, none => .error .pricesUnavailable

/-- Per-unit gram factor exactly as the specification documents it:
1 kg = 1000 g, 1 oz = 31.1035 g, 1 don = 3.75 g, anything else grams. -/
def unitFactorSpec (unit : String) : ℚ :=
  if unit = "kg" then 1000
  else if unit = "oz" then 31.1035
  else if unit = "don" then 3.75
  else 1

/-- Metal-specific snapshot price as the specification documents it: gold
selects the gold price, every other value selects the silver price. -/
def metalPriceSpec (metal : String) (silver gold : ℚ) : ℚ :=
  if metal = "gold" then gold else silver

/-! ## Listings, threads and messages
(app/services/threads.py and app/routers/pages.py)

Records are Python dicts read from JSONL files. Fields a writer may omit
or set to None are Option fields: every thread writer sets thread_id and
listing_id, but the participants key is absent in the legacy schema, and
listing_owner_uid, buyer_uid may be absent or None. A participants entry
is an Option String because create_thread inserts listing.get(owner_uid),
which can be None. Membership tests compare a plain string against the
entries, as the Python operator in does.
-/

/-- A marketplace listing record, restricted to the fields the thread
operations read: its id and the owner identity (dict get, so nullable). -/
structure Listing where
  id : String
  owner_uid : Option String
deriving DecidableEq

/-- A conversation thread record. -/
structure Thread where
  thread_id : String
  listing_id : String
  participants : Option (List (Option String))
  listing_owner_uid : Option String
  buyer_uid : Option String
  status : String
deriving DecidableEq

/-- One chat message as send_message builds it (pages.py lines 249 to
254); created_at is not modelled, ordering is positional. -/
structure MessageRec where
  sender_uid : String
  sender_alias : String
  text : String
deriving DecidableEq

/-- find_listing of threads.py: first record whose id matches. -/
def find_listing (listings : List Listing) (listing_id : String) :
    Option Listing :=
  listings.find? (fun x => x.id == listing_id)

/-- find_thread of threads.py: first record whose thread_id matches. -/
def find_thread (threads : List Thread) (thread_id : String) : Option Thread :=
  threads.find? (fun t => t.thread_id == thread_id)

/-- create_thread of threads.py, with the fresh uuid passed in: writes
participants as the two element list buyer then owner, and keeps the two
legacy debug fields. -/
def create_thread (listing : Listing) (buyer_uid : String)
    (thread_id : String) : Thread :=
  { thread_id := thread_id
    listing_id := listing.id
    participants := some [some buyer_uid, listing.owner_uid]
    listing_owner_uid := listing.owner_uid
    buyer_uid := some buyer_uid
    status := "open" }

/-- find_existing_thread of threads.py lines 45 to 59: first thread of the
listing that has the buyer among its participants list, or, old format
compatibility, whose buyer_uid scalar equals the buyer. -/
def find_existing_thread (listing_id buyer_uid : String)
    (threads : List Thread) : Option Thread :=
  threads.find? (fun t =>
    t.listing_id == listing_id &&
      ((t.participants.getD []).contains (some buyer_uid)
        || t.buyer_uid == some buyer_uid))

/-- Outcome of the contact route: the HTTP effect it ends with. -/
inductive ContactResult where
  | notFound
  | selfContact
  | redirect (thread_id : String)
deriving DecidableEq

/-- The scan of pages.py lines 192 to 195: first thread of this listing
whose participants list (defaulted to empty when the key is absent)
contains the caller. Unlike find_existing_thread it never consults the
legacy buyer_uid scalar. -/
def contact_scan (listing_id user_uid : String) (threads : List Thread) :
    Option Thread :=
  threads.find? (fun t =>
    t.listing_id == listing_id
      && (t.participants.getD []).contains (some user_uid))

/-- contact_listing of pages.py lines 179 to 199, with the fresh uuid the
created thread would receive passed in. Returns the HTTP outcome and the
thread store after the call. -/
def contact_listing (listing_id user_uid : String) (listings : List Listing)
    (threads : List Thread) (fresh_id : String) :
    ContactResult × List Thread :=
  match find_listing listings listing_id with
  | none => (.notFound, threads)
  | some listing =>
    if some user_uid = listing.owner_uid then (.selfContact, threads)
    else
      match contact_scan listing_id user_uid threads with
      | some t => (.redirect t.thread_id, threads)
      | none =>
        let thread := create_thread listing user_uid fresh_id
        (.redirect thread.thread_id, threads ++ [thread])

/-- The compatibility shim of pages.py lines 235 to 239: when the found
thread has no participants key and both legacy scalars are present and
truthy (Python truthiness of str: nonempty), participants becomes the list
buyer then owner, in memory only. -/
def compat_thread (t : Thread) : Thread :=
  match t.participants with
  | some _ => t
  | none =>
    match t.listing_owner_uid, t.buyer_uid with
    | some o, some b =>
      if o ≠ "" ∧ b ≠ "" then { t with participants := some [some b, some o] }
      else t
    | _, _ => t

/-- Outcome of the send route. keyError is the uncaught KeyError Python
raises at line 246 when a thread still has no participants key after the
compatibility shim. -/
inductive SendOutcome where
  | notFound
  | forbidden
  | keyError
  | sent
deriving DecidableEq

/-- send_message of pages.py lines 226 to 256 over the thread store and
the per-thread message logs (thread id to list of messages in file
order). Returns the HTTP outcome and the message logs after the call. -/
def send_message (thread_id user_uid text : String) (threads : List Thread)
    (msgs : String → List MessageRec) :
    SendOutcome × (String → List MessageRec) :=
  match (find_thread threads thread_id).map compat_thread with
  | none => (.notFound, msgs)
  | some t =>
    match t.participants with
    | none => (.keyError, msgs)
    | some parts =>
      if some user_uid ∈ parts then
        (.sent, fun i =>
          if i = thread_id then
            msgs thread_id ++ [⟨user_uid, "You", text.trim⟩]
          else msgs i)
      else (.forbidden, msgs)

/-- read_messages of threads.py: the message log of one thread in file
order, oldest first. -/
def read_messages (msgs : String → List MessageRec) (thread_id : String) :
    List MessageRec :=
  msgs thread_id

/-! ## Claims about the estimate calculator -/

theorem toGrams_normalize (unit : String) (a : ℚ) :
    toGrams (normalize_unit unit) a = a * unitFactorSpec unit := by
  by_cases hk : unit = "kg"
  · subst hk; simp [toGrams, normalize_unit, unitFactorSpec]
  · by_cases ho : unit = "oz"
    · subst ho; simp [toGrams, normalize_unit, unitFactorSpec, OZ_TO_GRAM]
    · by_cases hd : unit = "don"
      · subst hd; simp [toGrams, normalize_unit, unitFactorSpec, DON_TO_GRAM]
      · by_cases hg : unit = "g"
        · subst hg; simp [toGrams, normalize_unit, unitFactorSpec]
        · simp [toGrams, normalize_unit, unitFactorSpec, hk, ho, hd, hg]

theorem price_normalize (metal : String) (s g : ℚ) :
    (if normalize_metal metal = "silver" then s else g) =
      metalPriceSpec metal s g := by
  by_cases hs : metal = "silver"
  · subst hs; simp [normalize_metal, metalPriceSpec]
  · by_cases hg : metal = "gold"
    · subst hg; simp [normalize_metal, metalPriceSpec]
    · simp [normalize_metal, metalPriceSpec, hs, hg]

/-- Claim C1: with a populated snapshot and a positive amount,
compute_estimate succeeds and returns grams equal to the amount times the
documented unit factor (g 1, kg 1000, oz 31.1035, don 3.75, anything else
grams), the metal specific snapshot price (any metal other than silver or
gold treated as silver), and the total round(price times grams, 2). -/
theorem estimate_conversion_correct (metal unit : String)
    (a upd s g fx : ℚ) (ha : 0 < a) :
    compute_estimate metal unit (some a) ⟨upd, some s, some g, some fx⟩ =
      .ok (a * unitFactorSpec unit, metalPriceSpec metal s g,
        round2 (metalPriceSpec metal s g * (a * unitFactorSpec unit))) := by
  have hna : ¬ a ≤ 0 := not_le.2 ha
  simp only [compute_estimate, hna, if_false]
  rw [toGrams_normalize, price_normalize]

/-- Witness for C1 at metal silver, unit kg, amount 2. -/
theorem estimate_conversion_correct_witness :
    0 < (2 : ℚ) ∧
    compute_estimate "silver" "kg" (some 2) ⟨0, some 3, some 5, some 7⟩ =
      .ok (2 * unitFactorSpec "kg", metalPriceSpec "silver" 3 5,
        round2 (metalPriceSpec "silver" 3 5 * (2 * unitFactorSpec "kg"))) :=
  ⟨by decide, estimate_conversion_correct "silver" "kg" 2 0 3 5 7 (by decide)⟩

/-- Counterexample to claim C2 as stated: with silver, gold and the fx
rate all null but the amount 0, compute_estimate fails with InvalidAmount,
not with PricesUnavailable, so a null price field does not always produce
PricesUnavailable. -/
theorem estimate_null_prices_cex :
    compute_estimate "silver" "g" (some 0) ⟨0, none, none, none⟩ =
      .error .invalidAmount ∧
    EstimateError.invalidAmount ≠ EstimateError.pricesUnavailable := by
  refine ⟨?_, by decide⟩
  simp [compute_estimate]

/-- Claim C2 as amended: compute_estimate fails with InvalidAmount when
the amount is absent or not positive; with a positive amount it fails with
PricesUnavailable when any of the three snapshot price fields is null; and
with a positive amount and all three fields populated it succeeds. -/
theorem estimate_error_cases :
    (∀ metal unit data,
      compute_estimate metal unit none data = .error .invalidAmount) ∧
    (∀ metal unit data a, a ≤ 0 →
      compute_estimate metal unit (some a) data = .error .invalidAmount) ∧
    (∀ metal unit data a, 0 < a →
      (data.silver = none ∨ data.gold = none ∨ data.usdkrw = none) →
      compute_estimate metal unit (some a) data = .error .pricesUnavailable) ∧
    (∀ metal unit a upd s g fx, 0 < a →
      ∃ r, compute_estimate metal unit (some a) ⟨upd, some s, some g, some fx⟩
        = .ok r) := by
  refine ⟨fun metal unit data => rfl, ?_, ?_, ?_⟩
  · intro metal unit data a hle
    simp [compute_estimate, hle]
  · intro metal unit data a ha hnull
    have hna : ¬ a ≤ 0 := not_le.2 ha
    obtain ⟨upd, s, g, fx⟩ := data
    rcases s with _ | s <;> rcases g with _ | g <;> rcases fx with _ | fx <;>
      simp_all [compute_estimate]
  · intro metal unit a upd s g fx ha
    have hna : ¬ a ≤ 0 := not_le.2 ha
    exact ⟨(toGrams (normalize_unit unit) a,
      (if normalize_metal metal = "silver" then s else g),
      round2 ((if normalize_metal metal = "silver" then s else g) *
        toGrams (normalize_unit unit) a)),
      by simp only [compute_estimate, hna, if_false]⟩

/-- Witness for the amended C2: one concrete instance of each clause. -/
theorem estimate_error_cases_witness :
    compute_estimate "gold" "don" none ⟨0, some 1, some 2, some 3⟩ =
      .error .invalidAmount ∧
    compute_estimate "silver" "g" (some 0) ⟨0, some 1, some 2, some 3⟩ =
      .error .invalidAmount ∧
    compute_estimate "silver" "g" (some 5) ⟨0, none, some 2, some 3⟩ =
      .error .pricesUnavailable ∧
    ∃ r, compute_estimate "silver" "g" (some 5) ⟨0, some 1, some 2, some 3⟩
      = .ok r :=
  ⟨estimate_error_cases.1 "gold" "don" ⟨0, some 1, some 2, some 3⟩,
    estimate_error_cases.2.1 "silver" "g" ⟨0, some 1, some 2, some 3⟩ 0
      (le_refl 0),
    estimate_error_cases.2.2.1 "silver" "g" ⟨0, none, some 2, some 3⟩ 5
      (by decide) (Or.inl rfl),
    estimate_error_cases.2.2.2 "silver" "g" 5 0 1 2 3 (by decide)⟩

/-- Claim C10: when the amount is absent or not positive and some snapshot
price field is simultaneously null, compute_estimate fails with
InvalidAmount, never with PricesUnavailable: the amount check runs first. -/
theorem invalid_amount_precedence (metal unit : String) (amount : Option ℚ)
    (data : Cache)
    (hbad : amount = none ∨ ∃ a, amount = some a ∧ a ≤ 0)
    (_hnull : data.silver = none ∨ data.gold = none ∨ data.usdkrw = none) :
    compute_estimate metal unit amount data = .error .invalidAmount := by
  rcases hbad with h | ⟨a, ha, hle⟩
  · subst h; rfl
  · subst ha; simp [compute_estimate, hle]

/-- Witness for C10 at amount 0 with every price field null. -/
theorem invalid_amount_precedence_witness :
    compute_estimate "gold" "oz" (some 0) ⟨0, none, none, none⟩ =
      .error .invalidAmount :=
  invalid_amount_precedence "gold" "oz" (some 0) ⟨0, none, none, none⟩
    (Or.inr ⟨0, rfl, le_refl 0⟩) (Or.inl rfl)

/-! ## Claims about the price cache -/

/-- Claim C3: a refresh either fully succeeds, replacing the three price
fields and the timestamp together, or fails leaving every cache field
exactly as it was; hence in every reachable cache state the three price
fields are all populated or all null. -/
theorem refresh_all_or_nothing :
    (∀ c now, refresh_data c none now = c) ∧
    (∀ c f now, refresh_data c (some f) now =
      ⟨now, some (silver_per_gram f), some (gold_per_gram f),
        some f.usdkrw⟩) ∧
    (∀ c, Reachable c →
      (c.silver = none ∧ c.gold = none ∧ c.usdkrw = none) ∨
      (∃ s g fx, c.silver = some s ∧ c.gold = some g ∧
        c.usdkrw = some fx)) := by
  refine ⟨fun c now => rfl, fun c f now => rfl, ?_⟩
  intro c h
  induction h with
  | init => exact Or.inl ⟨rfl, rfl, rfl⟩
  | step c fetch now _ ih =>
    cases fetch with
    | none => exact ih
    | some f => exact Or.inr ⟨_, _, _, rfl, rfl, rfl⟩

/-- Witness for C3: a failed refresh on a populated cache, a successful
refresh on the initial cache, and the invariant at the initial cache. -/
theorem refresh_all_or_nothing_witness :
    refresh_data ⟨5, some 1, some 2, some 3⟩ none 9 =
      ⟨5, some 1, some 2, some 3⟩ ∧
    refresh_data initial_cache (some ⟨0, 0, 0⟩) 7 =
      ⟨7, some (silver_per_gram ⟨0, 0, 0⟩), some (gold_per_gram ⟨0, 0, 0⟩),
        some 0⟩ ∧
    ((initial_cache.silver = none ∧ initial_cache.gold = none ∧
      initial_cache.usdkrw = none) ∨
      (∃ s g fx, initial_cache.silver = some s ∧
        initial_cache.gold = some g ∧ initial_cache.usdkrw = some fx)) :=
  ⟨refresh_all_or_nothing.1 ⟨5, some 1, some 2, some 3⟩ 9,
    refresh_all_or_nothing.2.1 initial_cache ⟨0, 0, 0⟩ 7,
    refresh_all_or_nothing.2.2 initial_cache Reachable.init⟩

/-! ## Claims about threads and messages -/

/-- A thread stored under the legacy two field schema: owner and buyer as
scalar fields, no participants list. -/
def legacyThread : Thread :=
  { thread_id := "t-legacy"
    listing_id := "L1"
    participants := none
    listing_owner_uid := some "owner1"
    buyer_uid := some "buyer1"
    status := "open" }

/-- The listing the legacy thread belongs to. -/
def legacyListing : Listing := ⟨"L1", some "owner1"⟩

/-- Claim C4 evaluated at the failing input: the service level lookup
find_existing_thread does recognize the legacy thread, and send_message
permits both the legacy buyer and the legacy owner, but the contact route
scans only the participants key, so contact by the legacy buyer creates a
duplicate thread instead of returning the legacy one. -/
theorem contact_misses_legacy_thread :
    find_existing_thread "L1" "buyer1" [legacyThread] = some legacyThread ∧
    contact_listing "L1" "buyer1" [legacyListing] [legacyThread] "t-new" =
      (.redirect "t-new",
        [legacyThread, create_thread legacyListing "buyer1" "t-new"]) ∧
    (send_message "t-legacy" "buyer1" "hello" [legacyThread]
      (fun _ => [])).1 = .sent ∧
    (send_message "t-legacy" "owner1" "hello" [legacyThread]
      (fun _ => [])).1 = .sent :=
  ⟨rfl, rfl, rfl, rfl⟩

theorem find_listing_id {listings : List Listing} {lid : String}
    {listing : Listing} (h : find_listing listings lid = some listing) :
    listing.id = lid := by
  have hp := List.find?_some h
  simpa using hp

theorem contact_scan_append_created {lid uid : String}
    {threads : List Thread} {listing : Listing} (fid : String)
    (hid : listing.id = lid)
    (h : contact_scan lid uid threads = none) :
    contact_scan lid uid (threads ++ [create_thread listing uid fid]) =
      some (create_thread listing uid fid) := by
  unfold contact_scan at h ⊢
  rw [List.find?_append, h]
  simp [List.find?, create_thread, hid]

/-- Claim C5: contact is idempotent: if a contact call returns a redirect
to a thread, calling contact again with the same caller and listing over
the resulting thread store returns a redirect to the identical thread id
and leaves the thread store unchanged. -/
theorem contact_idempotent (lid uid fresh1 fresh2 tid : String)
    (listings : List Listing) (threads threads1 : List Thread)
    (h : contact_listing lid uid listings threads fresh1 =
      (.redirect tid, threads1)) :
    contact_listing lid uid listings threads1 fresh2 =
      (.redirect tid, threads1) := by
  simp only [contact_listing] at h ⊢
  cases hfl : find_listing listings lid with
  | none =>
    simp only [hfl] at h
    simp at h
  | some listing =>
    simp only [hfl] at h ⊢
    by_cases how : some uid = listing.owner_uid
    · rw [if_pos how] at h
      simp at h
    · rw [if_neg how] at h ⊢
      cases hsc : contact_scan lid uid threads with
      | some t =>
        simp only [hsc, Prod.mk.injEq, ContactResult.redirect.injEq] at h
        obtain ⟨h1, h2⟩ := h
        subst h2
        simp [hsc, h1]
      | none =>
        simp only [hsc, Prod.mk.injEq, ContactResult.redirect.injEq] at h
        obtain ⟨h1, h2⟩ := h
        subst h2
        simp [contact_scan_append_created fresh1 (find_listing_id hfl) hsc,
          h1]

/-- Witness for C5: a first contact that creates the thread, then the
theorem applied to that call. -/
theorem contact_idempotent_witness :
    contact_listing "L1" "b" [⟨"L1", some "o"⟩]
        [create_thread ⟨"L1", some "o"⟩ "b" "t1"] "t2" =
      (.redirect "t1", [create_thread ⟨"L1", some "o"⟩ "b" "t1"]) :=
  contact_idempotent "L1" "b" "t1" "t2" "t1" [⟨"L1", some "o"⟩] []
    [create_thread ⟨"L1", some "o"⟩ "b" "t1"] rfl

/-- Claim C6: contact fails with NotFound when no listing has the
requested id, and with SelfContact when the caller is the owner of the
found listing; in both cases the thread store is unchanged. -/
theorem contact_failure_cases (lid uid fresh : String)
    (listings : List Listing) (threads : List Thread) :
    ((∀ l ∈ listings, l.id ≠ lid) →
      contact_listing lid uid listings threads fresh = (.notFound, threads)) ∧
    (∀ listing, find_listing listings lid = some listing →
      listing.owner_uid = some uid →
      contact_listing lid uid listings threads fresh =
        (.selfContact, threads)) := by
  constructor
  · intro h
    have hnone : find_listing listings lid = none := by
      unfold find_listing
      rw [List.find?_eq_none]
      intro x hx
      simp [h x hx]
    unfold contact_listing
    rw [hnone]
  · intro listing hfind how
    simp only [contact_listing, hfind]
    rw [if_pos how.symm]

/-- Witness for C6: an unknown listing id, and the owner contacting the
own listing. -/
theorem contact_failure_cases_witness :
    contact_listing "LX" "b" [⟨"L1", some "o"⟩] [] "t9" =
      (.notFound, []) ∧
    contact_listing "L1" "o" [⟨"L1", some "o"⟩] [] "t9" =
      (.selfContact, []) :=
  ⟨(contact_failure_cases "LX" "b" "t9" [⟨"L1", some "o"⟩] []).1 (by decide),
    (contact_failure_cases "L1" "o" "t9" [⟨"L1", some "o"⟩] []).2
      ⟨"L1", some "o"⟩ rfl rfl⟩

/-- Claim C7: send_message fails with NotFound when the thread does not
exist and with Forbidden when the caller is not among the participants of
the thread (after the legacy compatibility shim), leaving every message
log unchanged; a participant appends exactly one message whose text is the
input trimmed of surrounding whitespace and whose display alias is You,
the new message becomes the last entry of that thread log (oldest first,
send order) and every other thread log is unchanged. -/
theorem send_message_cases (tid uid text : String) (threads : List Thread)
    (msgs : String → List MessageRec) :
    (find_thread threads tid = none →
      send_message tid uid text threads msgs = (.notFound, msgs)) ∧
    (∀ t ps, find_thread threads tid = some t →
      (compat_thread t).participants = some ps →
      ((some uid ∉ ps →
        send_message tid uid text threads msgs = (.forbidden, msgs)) ∧
      (some uid ∈ ps →
        (send_message tid uid text threads msgs).1 = .sent ∧
        read_messages (send_message tid uid text threads msgs).2 tid =
          read_messages msgs tid ++ [⟨uid, "You", text.trim⟩] ∧
        ∀ other, other ≠ tid →
          read_messages (send_message tid uid text threads msgs).2 other =
            read_messages msgs other))) := by
  constructor
  · intro h
    simp only [send_message, h, Option.map_none']
  · intro t ps hft hps
    constructor
    · intro hnot
      simp only [send_message, hft, Option.map_some', hps]
      rw [if_neg hnot]
    · intro hmem
      simp only [send_message, hft, Option.map_some', hps]
      rw [if_pos hmem]
      refine ⟨rfl, ?_, ?_⟩
      · simp [read_messages]
      · intro other hne
        simp [read_messages, hne]

/-- Witness for C7: a missing thread, a non participant of a stored
thread, and a participant whose message is appended. -/
theorem send_message_cases_witness :
    send_message "t1" "b" " hi " [] (fun _ => []) =
      (.notFound, fun _ => []) ∧
    send_message "t1" "z" " hi "
      [⟨"t1", "L1", some [some "b", some "o"], some "o", some "b", "open"⟩]
      (fun _ => []) = (.forbidden, fun _ => []) ∧
    (send_message "t1" "b" " hi "
      [⟨"t1", "L1", some [some "b", some "o"], some "o", some "b", "open"⟩]
      (fun _ => [])).1 = .sent ∧
    read_messages (send_message "t1" "b" " hi "
      [⟨"t1", "L1", some [some "b", some "o"], some "o", some "b", "open"⟩]
      (fun _ => [])).2 "t1" =
      read_messages (fun _ => []) "t1" ++ [⟨"b", "You", " hi ".trim⟩] ∧
    read_messages (send_message "t1" "b" " hi "
      [⟨"t1", "L1", some [some "b", some "o"], some "o", some "b", "open"⟩]
      (fun _ => [])).2 "t2" = read_messages (fun _ => []) "t2" :=
  ⟨(send_message_cases "t1" "b" " hi " [] (fun _ => [])).1 rfl,
    ((send_message_cases "t1" "z" " hi "
      [⟨"t1", "L1", some [some "b", some "o"], some "o", some "b", "open"⟩]
      (fun _ => [])).2
      ⟨"t1", "L1", some [some "b", some "o"], some "o", some "b", "open"⟩
      [some "b", some "o"] rfl rfl).1 (by decide),
    (((send_message_cases "t1" "b" " hi "
      [⟨"t1", "L1", some [some "b", some "o"], some "o", some "b", "open"⟩]
      (fun _ => [])).2
      ⟨"t1", "L1", some [some "b", some "o"], some "o", some "b", "open"⟩
      [some "b", some "o"] rfl rfl).2 (by decide)).1,
    (((send_message_cases "t1" "b" " hi "
      [⟨"t1", "L1", some [some "b", some "o"], some "o", some "b", "open"⟩]
      (fun _ => [])).2
      ⟨"t1", "L1", some [some "b", some "o"], some "o", some "b", "open"⟩
      [some "b", some "o"] rfl rfl).2 (by decide)).2.1,
    (((send_message_cases "t1" "b" " hi "
      [⟨"t1", "L1", some [some "b", some "o"], some "o", some "b", "open"⟩]
      (fun _ => [])).2
      ⟨"t1", "L1", some [some "b", some "o"], some "o", some "b", "open"⟩
      [some "b", some "o"] rfl rfl).2 (by decide)).2.2 "t2" (by decide)⟩

/-! ## Claims about rounding and refresh visibility -/

/-- Counterexample to claim C8 as stated: with silver price 1/16 per gram
and an amount of 2 grams the exact product is 0.125, a tie at two
decimals; compute_estimate returns total 0.12 (the even hundredth) while
round half up as the claim prescribes gives 0.13. -/
theorem round_half_up_cex :
    compute_estimate "silver" "g" (some 2) ⟨0, some (1/16), some 1, some 1⟩ =
      .ok (2, 1/16, 12/100) ∧
    round2HalfUpSpec (1/16 * 2) = 13/100 ∧
    (12/100 : ℚ) ≠ 13/100 := by
  refine ⟨?_, ?_, by norm_num⟩
  · have hna : ¬ (2 : ℚ) ≤ 0 := by norm_num
    have h1 : compute_estimate "silver" "g" (some 2)
        ⟨0, some (1/16), some 1, some 1⟩ =
        .ok (2, 1/16, round2 (1/16 * 2)) := by
      simp only [compute_estimate, hna, if_false]
      rfl
    have h2 : round2 ((1/16 : ℚ) * 2) = 12/100 := by
      norm_num [round2, roundHalfEven, Int.fract]
    rw [h1, h2]
  · norm_num [round2HalfUpSpec, roundHalfUpAway]

/-- Claim C8 as amended: the total compute_estimate returns is n/100 where
n is the integer nearest to 100 times price times grams, with a value
exactly halfway between two hundredths resolved to the even n (round half
to even, the rule of Python round), not away from zero. Stated over silver
in grams, which makes price times grams range over all rationals. -/
theorem round_half_even_amended (p a upd g fx : ℚ) (ha : 0 < a) :
    ∃ n : ℤ,
      compute_estimate "silver" "g" (some a) ⟨upd, some p, some g, some fx⟩ =
        .ok (a, p, (n : ℚ) / 100) ∧
      |p * a * 100 - (n : ℚ)| ≤ 1/2 ∧
      (|p * a * 100 - (n : ℚ)| = 1/2 → n % 2 = 0) := by
  have hna : ¬ a ≤ 0 := not_le.2 ha
  refine ⟨roundHalfEven (p * a * 100), ?_,
    roundHalfEven_nearest (p * a * 100),
    fun h => roundHalfEven_tie_even (p * a * 100) h⟩
  have he : compute_estimate "silver" "g" (some a)
      ⟨upd, some p, some g, some fx⟩ = .ok (a, p, round2 (p * a)) := by
    simp only [compute_estimate, hna, if_false]
    rfl
  rw [he, round2]

/-- Witness for the amended C8 at price 1, amount 2 grams. -/
theorem round_half_even_amended_witness :
    0 < (2 : ℚ) ∧
    ∃ n : ℤ,
      compute_estimate "silver" "g" (some 2) ⟨0, some 1, some 1, some 1⟩ =
        .ok (2, 1, (n : ℚ) / 100) ∧
      |1 * 2 * 100 - (n : ℚ)| ≤ 1/2 ∧
      (|1 * 2 * 100 - (n : ℚ)| = 1/2 → n % 2 = 0) :=
  ⟨by decide, round_half_even_amended 1 2 0 1 1 (by decide)⟩

/-- Counterexample to claim C9 as stated: get_data hands back the cache
dict itself, and between the silver store and the gold store of a
successful refresh the cache holds the new silver price next to the old
gold price; a reader scheduled at that point observes a partially updated
snapshot, different from both the pre refresh and the post refresh
snapshot. -/
theorem partial_snapshot_observable_cex :
    write_silver ⟨0, 0, 0⟩ ⟨100, some 10, some 20, some 30⟩ ∈
      refresh_trace ⟨0, 0, 0⟩ 200 ⟨100, some 10, some 20, some 30⟩ ∧
    (get_data (write_silver ⟨0, 0, 0⟩ ⟨100, some 10, some 20, some 30⟩)
      200).2 = write_silver ⟨0, 0, 0⟩ ⟨100, some 10, some 20, some 30⟩ ∧
    write_silver ⟨0, 0, 0⟩ ⟨100, some 10, some 20, some 30⟩ =
      ⟨100, some 0, some 20, some 30⟩ ∧
    refresh_data ⟨100, some 10, some 20, some 30⟩ (some ⟨0, 0, 0⟩) 200 =
      ⟨200, some 0, some 0, some 0⟩ ∧
    (⟨100, some 0, some 20, some 30⟩ : Cache) ≠
      ⟨100, some 10, some 20, some 30⟩ ∧
    (⟨100, some 0, some 20, some 30⟩ : Cache) ≠
      ⟨200, some 0, some 0, some 0⟩ := by
  refine ⟨by simp [refresh_trace], rfl, ?_, ?_, by norm_num, by norm_num⟩
  · norm_num [write_silver, silver_per_gram, OZ_TO_GRAM]
  · norm_num [refresh_data, silver_per_gram, gold_per_gram, OZ_TO_GRAM]

/-- Claim C9 as amended: each single field store of a refresh is atomic,
but the four field update is not: after the silver store the cache already
holds the new silver price while gold, fx rate and timestamp are still the
old ones, this intermediate state is part of the visible refresh trace,
get_data returns it uncopied to a reader scheduled there, and whenever the
refresh actually changes the prices that state differs from both the pre
refresh and the post refresh snapshot. The trace does end in exactly the
fully refreshed snapshot. -/
theorem refresh_not_atomic_amended (c : Cache) (f : FetchResult) (now : ℚ)
    (s0 : ℚ) (hs : c.silver = some s0) (hsne : s0 ≠ silver_per_gram f)
    (g0 : ℚ) (hg : c.gold = some g0) (hgne : g0 ≠ gold_per_gram f) :
    write_silver f c ∈ refresh_trace f now c ∧
    (get_data (write_silver f c) now).2 = write_silver f c ∧
    (write_silver f c).silver = some (silver_per_gram f) ∧
    (write_silver f c).gold = c.gold ∧
    (write_silver f c).usdkrw = c.usdkrw ∧
    (write_silver f c).updated = c.updated ∧
    (refresh_trace f now c).getLast? = some (refresh_data c (some f) now) ∧
    write_silver f c ≠ c ∧
    write_silver f c ≠ refresh_data c (some f) now := by
  refine ⟨by simp [refresh_trace], rfl, rfl, rfl, rfl, rfl, rfl, ?_, ?_⟩
  · intro he
    have h2 : some (silver_per_gram f) = some s0 := by
      have h3 := congrArg Cache.silver he
      simpa [write_silver, hs] using h3
    exact hsne (Option.some.inj h2).symm
  · intro he
    have h2 := congrArg Cache.gold he
    simp [write_silver, refresh_data, hg] at h2
    exact hgne h2

/-- Witness for the amended C9: a populated cache refreshed with fetch
values that change both prices to zero. -/
theorem refresh_not_atomic_amended_witness :
    write_silver ⟨0, 0, 0⟩ ⟨100, some 10, some 20, some 30⟩ ∈
      refresh_trace ⟨0, 0, 0⟩ 200 ⟨100, some 10, some 20, some 30⟩ ∧
    (get_data (write_silver ⟨0, 0, 0⟩ ⟨100, some 10, some 20, some 30⟩)
      200).2 = write_silver ⟨0, 0, 0⟩ ⟨100, some 10, some 20, some 30⟩ ∧
    (write_silver ⟨0, 0, 0⟩ ⟨100, some 10, some 20, some 30⟩).silver =
      some (silver_per_gram ⟨0, 0, 0⟩) ∧
    (write_silver ⟨0, 0, 0⟩ ⟨100, some 10, some 20, some 30⟩).gold =
      (⟨100, some 10, some 20, some 30⟩ : Cache).gold ∧
    (write_silver ⟨0, 0, 0⟩ ⟨100, some 10, some 20, some 30⟩).usdkrw =
      (⟨100, some 10, some 20, some 30⟩ : Cache).usdkrw ∧
    (write_silver ⟨0, 0, 0⟩ ⟨100, some 10, some 20, some 30⟩).updated =
      (⟨100, some 10, some 20, some 30⟩ : Cache).updated ∧
    (refresh_trace ⟨0, 0, 0⟩ 200 ⟨100, some 10, some 20, some 30⟩).getLast?
      = some (refresh_data ⟨100, some 10, some 20, some 30⟩
        (some ⟨0, 0, 0⟩) 200) ∧
    write_silver ⟨0, 0, 0⟩ ⟨100, some 10, some 20, some 30⟩ ≠
      ⟨100, some 10, some 20, some 30⟩ ∧
    write_silver ⟨0, 0, 0⟩ ⟨100, some 10, some 20, some 30⟩ ≠
      refresh_data ⟨100, some 10, some 20, some 30⟩ (some ⟨0, 0, 0⟩) 200 :=
  refresh_not_atomic_amended ⟨100, some 10, some 20, some 30⟩ ⟨0, 0, 0⟩ 200
    10 rfl (by simp [silver_per_gram, OZ_TO_GRAM])
    20 rfl (by simp [gold_per_gram, OZ_TO_GRAM])
